import Mathlib

/-!
Verification of the MarketingAnalyticsDashboard analytics pipeline.

The frontend (Next.js, under apps/web) is embedded directly from source:
the channel-summary builder of `use-mmm-data.ts`, the insight generation of
the `SimpleMMInsights` component, and the auth store of `lib/auth.ts`.
The backend analytics engine (ArtifactStore / ContributionProcessor /
CurveEngine) is not part of the available sources; those definitions are
modelled from the specification and are marked as such in their doc
comments.  All monetary/ratio quantities are modelled as rationals.
-/

namespace MMMDash

/-! ## Frontend data model (`use-mmm-data.ts`) -/

/-- Per-channel contribution summary statistics, the entries of the
`summary` record of the contribution endpoint (`mean`, `total`, `max`,
`min` in `MMMContribution.summary`). -/
structure ChannelStats where
  mean : ℚ
  total : ℚ
  max : ℚ
  min : ℚ
  deriving DecidableEq, Repr

/-- A response curve as exposed to the frontend (`MMMResponseCurve.curves`):
sampled spend and response sequences plus derived scalars. -/
structure ResponseCurve where
  spend : List ℚ
  response : List ℚ
  saturation_point : ℚ
  efficiency : ℚ
  adstock_rate : ℚ
  deriving DecidableEq, Repr

/-- The channel performance record built by `getChannelSummary`
(`MMMChannel` in `use-mmm-data.ts`). -/
structure MMMChannel where
  name : String
  total_spend : ℚ
  total_contribution : ℚ
  contribution_share : ℚ
  efficiency : ℚ
  avg_weekly_spend : ℚ
  avg_weekly_contribution : ℚ
  deriving DecidableEq, Repr

/-- Model metadata (`MMMInfo` in `use-mmm-data.ts`). -/
structure MMMInfo where
  model_type : String
  version : String
  training_period : String
  channels : List String
  data_frequency : String
  total_weeks : ℕ
  data_source : String
  deriving DecidableEq, Repr

/-- Key lookup in a record modelled as an association list (JS object
property access `record[key]`). -/
def alookup {β : Type} (k : String) : List (String × β) → Option β
  | [] => none
  | (k', v) :: rest => if k = k' then some v else alookup k rest

/-- Function `getChannelSummary` from `use-mmm-data.ts`: for each channel of the
channel list, if both the contribution summary and the curves record have
an entry for it (`if (channelData && curveData)`), build an `MMMChannel`
with `total_spend = channelData.total * 0.5`, `total_contribution =
channelData.total`, `contribution_share = channelData.total / Σ totals`,
`efficiency = curveData.efficiency`, `avg_weekly_spend = channelData.mean
* 0.5`, `avg_weekly_contribution = channelData.mean`. -/
def getChannelSummary (channels : List String)
    (contribSummary : List (String × ChannelStats))
    (curves : List (String × ResponseCurve)) : List (String × MMMChannel) :=
  let grandTotal := (contribSummary.map (fun p => p.2.total)).sum
  channels.filterMap (fun ch =>
    match alookup ch contribSummary, alookup ch curves with
    | some cd, some cv =>
        some (ch,
          { name := ch
            total_spend := cd.total * 0.5
            total_contribution := cd.total
            contribution_share := cd.total / grandTotal
            efficiency := cv.efficiency
            avg_weekly_spend := cd.mean * 0.5
            avg_weekly_contribution := cd.mean })
    | _, _ => none)

/-- Membership facts about `getChannelSummary`: every produced entry comes
from a channel present in all three inputs. -/
theorem mem_getChannelSummary {channels : List String}
    {contribSummary : List (String × ChannelStats)}
    {curves : List (String × ResponseCurve)} {p : String × MMMChannel}
    (hp : p ∈ getChannelSummary channels contribSummary curves) :
    ∃ cd cv, alookup p.1 contribSummary = some cd ∧
      alookup p.1 curves = some cv ∧
      p.2 = { name := p.1
              total_spend := cd.total * 0.5
              total_contribution := cd.total
              contribution_share :=
                cd.total / (contribSummary.map (fun q => q.2.total)).sum
              efficiency := cv.efficiency
              avg_weekly_spend := cd.mean * 0.5
              avg_weekly_contribution := cd.mean } := by
  unfold getChannelSummary at hp
  rcases List.mem_filterMap.mp hp with ⟨ch, _, hch⟩
  rcases h1 : alookup ch contribSummary with _ | cd <;> rw [h1] at hch
  · cases hch
  · rcases h2 : alookup ch curves with _ | cv <;> rw [h2] at hch
    · cases hch
    · simp only [Option.some.injEq] at hch
      subst hch
      exact ⟨cd, cv, h1, h2, rfl⟩

/-! ## Insight generation (`SimpleMMInsights`, export.ts variant) -/

/-- The `type` tag of an insight: `'success' | 'warning' | 'info'`. -/
inductive InsightKind
  | success
  | warning
  | info
  deriving DecidableEq, Repr

/-- An insight as pushed by `SimpleMMInsights`.  Each constructor mirrors
one `generatedInsights.push({...})` site and carries the data interpolated
into that insight's title/description strings. -/
inductive Insight
  /-- Top-performer insight: channel, its ROI, percentage above the
  average efficiency, and the displayed saturation point. -/
  | topPerformer (channel : String) (roi pctAboveAvg satPoint : ℚ)
  /-- Underperformer insight: channel, its ROI, percentage below the
  average efficiency. -/
  | underperforming (channel : String) (roi pctBelowAvg : ℚ)
  /-- Budget-shift insight: source channel, target channel, efficiency
  gap. -/
  | budgetOpportunity (fromChannel toChannel : String) (gap : ℚ)
  /-- Saturation alert naming all low-saturation channels together. -/
  | saturationAlert (channels : List String)
  /-- Portfolio summary: average, best and worst efficiency, plus period
  and channel counts. -/
  | portfolio (avg best worst : ℚ) (weeks channelCount : ℕ)
  deriving DecidableEq, Repr

/-- The `type` field of each pushed insight. -/
def Insight.kind : Insight → InsightKind
  | .topPerformer _ _ _ _ => .success
  | .underperforming _ _ _ => .warning
  | .budgetOpportunity _ _ _ => .info
  | .saturationAlert _ => .warning
  | .portfolio _ _ _ _ _ => .info

/-- Insert an entry into a list sorted by strictly greater efficiency,
keeping the original relative order of entries with equal efficiency. -/
def insertEffDesc (x : String × MMMChannel) :
    List (String × MMMChannel) → List (String × MMMChannel)
  | [] => [x]
  | y :: ys =>
      if y.2.efficiency ≤ x.2.efficiency then x :: y :: ys
      else y :: insertEffDesc x ys

/-- The stable descending sort
`channels.sort(([,a],[,b]) => b.efficiency - a.efficiency)`. -/
def sortByEffDesc : List (String × MMMChannel) → List (String × MMMChannel)
  | [] => []
  | x :: xs => insertEffDesc x (sortByEffDesc xs)

/-- The list `Object.values(curves.curves).map(c => c?.efficiency || 0).filter(e => e > 0)`. -/
def positiveEfficiencies (curves : List (String × ResponseCurve)) : List ℚ :=
  (curves.map (fun p => p.2.efficiency)).filter (fun e => decide (0 < e))

/-- Average efficiency `avgEfficiency`: mean of the positive curve efficiencies, `1` when
there are none. -/
def avgEfficiency (curves : List (String × ResponseCurve)) : ℚ :=
  let es := positiveEfficiencies curves
  if es.length = 0 then 1 else es.sum / es.length

/-- Best efficiency `maxEfficiency`: `Math.max(...efficiencies)`, `1` when there are none. -/
def maxEfficiency (curves : List (String × ResponseCurve)) : ℚ :=
  match positiveEfficiencies curves with
  | [] => 1
  | e :: es => es.foldl max e

/-- Worst efficiency `minEfficiency`: `Math.min(...efficiencies)`, `1` when there are none. -/
def minEfficiency (curves : List (String × ResponseCurve)) : ℚ :=
  match positiveEfficiencies curves with
  | [] => 1
  | e :: es => es.foldl min e

/-- The displayed saturation point for the top channel:
`curves.curves?.[name]?.saturation_point || 50000` (a missing entry, and a
zero value, both fall back to `50000`). -/
def satDisplay (curves : List (String × ResponseCurve)) (name : String) : ℚ :=
  match alookup name curves with
  | some cv => if cv.saturation_point = 0 then 50000 else cv.saturation_point
  | none => 50000

/-- Filter `nearSaturation`: channels whose `saturation_point` is truthy and
below the fixed `50000` threshold. -/
def nearSaturation (curves : List (String × ResponseCurve)) :
    List (String × ResponseCurve) :=
  curves.filter
    (fun p => decide (p.2.saturation_point ≠ 0 ∧ p.2.saturation_point < 50000))

/-- The insight generation of `SimpleMMInsights` (export.ts variant):
sort the channel summary by descending efficiency, then push (1) a
success insight for the top entry when one exists, (2) a warning for the
bottom entry when it differs from the top (i.e. the sorted list has at
least two entries), (3) a budget-shift info insight under the same
condition, (4) a saturation-alert warning when any curve has a low
saturation point, (5) the portfolio info insight, always. -/
def generateInsights (summary : List (String × MMMChannel))
    (curves : List (String × ResponseCurve)) (info : MMMInfo) : List Insight :=
  let sorted := sortByEffDesc summary
  let avgE := avgEfficiency curves
  let successPart :=
    match sorted.head? with
    | some top =>
        [Insight.topPerformer top.1 top.2.efficiency
          ((top.2.efficiency - avgE) / avgE * 100) (satDisplay curves top.1)]
    | none => []
  let warnPart :=
    if 2 ≤ sorted.length then
      match sorted.getLast? with
      | some under =>
          [Insight.underperforming under.1 under.2.efficiency
            ((avgE - under.2.efficiency) / under.2.efficiency * 100)]
      | none => []
    else []
  let budgetPart :=
    if 2 ≤ sorted.length then
      match sorted.head?, sorted.getLast? with
      | some top, some under =>
          [Insight.budgetOpportunity under.1 top.1
            (top.2.efficiency - under.2.efficiency)]
      | _, _ => []
    else []
  let satPart :=
    if nearSaturation curves = [] then []
    else [Insight.saturationAlert ((nearSaturation curves).map Prod.fst)]
  successPart ++ warnPart ++ budgetPart ++ satPart ++
    [Insight.portfolio avgE (maxEfficiency curves) (minEfficiency curves)
      info.total_weeks info.channels.length]

theorem length_insertEffDesc (x : String × MMMChannel)
    (l : List (String × MMMChannel)) :
    (insertEffDesc x l).length = l.length + 1 := by
  induction l with
  | nil => rfl
  | cons y ys ih =>
      unfold insertEffDesc
      split
      · rfl
      · simp [List.length_cons, ih]

theorem length_sortByEffDesc (l : List (String × MMMChannel)) :
    (sortByEffDesc l).length = l.length := by
  induction l with
  | nil => rfl
  | cons x xs ih => simp [sortByEffDesc, length_insertEffDesc, ih]

/-- Rank of an insight kind in the grouping order claimed by the spec
(success before warning before info). -/
def kindRank : InsightKind → ℕ
  | .success => 0
  | .warning => 1
  | .info => 2

/-- A channel summary entry as produced by `getChannelSummary`, with a
given name and efficiency (remaining figures irrelevant to the insight
run are zeroed). -/
def exMMMChannel (nm : String) (eff : ℚ) : MMMChannel :=
  { name := nm, total_spend := 0, total_contribution := 0
    contribution_share := 0, efficiency := eff
    avg_weekly_spend := 0, avg_weekly_contribution := 0 }

/-- A response-curve record with a given efficiency and saturation point. -/
def exCurve (eff sat : ℚ) : ResponseCurve :=
  { spend := [], response := [], saturation_point := sat
    efficiency := eff, adstock_rate := 0.3 }

/-- Model metadata used by the concrete insight-run examples. -/
def exInfo : MMMInfo :=
  { model_type := "Meridian MMM", version := "1.0"
    training_period := "2021-2024", channels := ["Channel0", "Channel1"]
    data_frequency := "weekly", total_weeks := 52, data_source := "real" }

/-- Two ranked channels plus a low-saturation curve for the top one:
an input on which the insight run interleaves kinds. -/
def exC2Summary : List (String × MMMChannel) :=
  [("Channel0", exMMMChannel "Channel0" 2), ("Channel1", exMMMChannel "Channel1" 1)]

/-- Curves for `exC2Summary`: the top channel saturates below the 50000
threshold, the bottom one does not. -/
def exC2Curves : List (String × ResponseCurve) :=
  [("Channel0", exCurve 2 30000), ("Channel1", exCurve 1 60000)]

/-- The kind sequence of a generated insight run, as a function of which
rule conditions fire. -/
theorem insightKinds_eq
    (s : List (String × MMMChannel))
    (c : List (String × ResponseCurve)) (i : MMMInfo) :
    (generateInsights s c i).map Insight.kind =
      (if s = [] then [] else [InsightKind.success]) ++
      (if 2 ≤ s.length then [InsightKind.warning, InsightKind.info] else []) ++
      (if nearSaturation c = [] then [] else [InsightKind.warning]) ++
      [InsightKind.info] := by
  simp only [generateInsights]
  rcases hs : sortByEffDesc s with _ | ⟨t, ts⟩
  · have h0 : s.length = 0 := by rw [← length_sortByEffDesc s, hs]; rfl
    have hnil : s = [] := List.length_eq_zero.mp h0
    by_cases hn : nearSaturation c = [] <;>
      simp [hnil, hn, Insight.kind]
  · have hlen : s.length = ts.length + 1 := by
      rw [← length_sortByEffDesc s, hs]; rfl
    have hne : s ≠ [] := by
      intro h; rw [h] at hlen; cases hlen
    rcases ts with _ | ⟨u, us⟩
    · have h1 : ¬ (2 ≤ s.length) := by rw [hlen]; decide
      by_cases hn : nearSaturation c = [] <;>
        simp [hne, h1, hn, Insight.kind]
    · have h2 : 2 ≤ s.length := by rw [hlen]; simp
      obtain ⟨w, hw⟩ := Option.isSome_iff_exists.mp
        (List.getLast?_isSome.mpr (List.cons_ne_nil t (u :: us)))
      by_cases hn : nearSaturation c = [] <;>
        simp [hne, h2, hw, hn, Insight.kind]

/-- The low-saturation channels of `exC2Curves`: exactly the first one. -/
theorem nearSaturation_exC2 :
    nearSaturation exC2Curves = [("Channel0", exCurve 2 30000)] := by
  norm_num [nearSaturation, exC2Curves, exCurve, List.filter]

/-- C2 (counterexample): on `exC2Summary`/`exC2Curves` the generated
insight kinds are success, warning, info, warning, info — the
saturation-alert warning follows the budget-shift info insight, so the
sequence is not grouped with all warnings before all infos. -/
theorem c2_counterexample :
    ¬ List.Chain' (fun a b => kindRank a.kind ≤ kindRank b.kind)
        (generateInsights exC2Summary exC2Curves exInfo) := by
  intro hchain
  have hmap : List.Chain' (fun x y => x ≤ y)
      ((generateInsights exC2Summary exC2Curves exInfo).map
        (fun a : Insight => kindRank a.kind)) :=
    (List.chain'_map (fun a : Insight => kindRank a.kind)).mpr hchain
  rw [show (fun a : Insight => kindRank a.kind) = kindRank ∘ Insight.kind
        from rfl,
      ← List.map_map, insightKinds_eq, nearSaturation_exC2] at hmap
  simp [exC2Summary, kindRank] at hmap

/-- C2 (amended): the insight sequence is deterministic and follows the
fixed rule order — top-performer success (iff any channel), then the
underperformer warning and the budget-shift info (iff at least two ranked
channels), then the saturation-alert warning (iff any low-saturation
curve), then the portfolio info, always; warnings and infos interleave
rather than being grouped by kind. -/
theorem c2_insight_order :
    ∀ (summary : List (String × MMMChannel))
      (curves : List (String × ResponseCurve)) (info : MMMInfo),
    (generateInsights summary curves info).map Insight.kind =
      (if summary = [] then [] else [InsightKind.success]) ++
      (if 2 ≤ summary.length then [InsightKind.warning, InsightKind.info] else []) ++
      (if nearSaturation curves = [] then [] else [InsightKind.warning]) ++
      [InsightKind.info] :=
  insightKinds_eq

/-- Two channels with identical efficiency `1`. -/
def exC3Summary : List (String × MMMChannel) :=
  [("Channel0", exMMMChannel "Channel0" 1), ("Channel1", exMMMChannel "Channel1" 1)]

/-- Curves for `exC3Summary`: both efficiencies `1`, high saturation. -/
def exC3Curves : List (String × ResponseCurve) :=
  [("Channel0", exCurve 1 60000), ("Channel1", exCurve 1 60000)]

/-- The full insight run on `exC3Summary`/`exC3Curves`: success naming
`Channel0` (despite zero margin over the mean), warning, budget info with
zero gap, portfolio info. -/
theorem generateInsights_exC3_eq :
    generateInsights exC3Summary exC3Curves exInfo =
      [Insight.topPerformer "Channel0" 1 0 60000,
       Insight.underperforming "Channel1" 1 0,
       Insight.budgetOpportunity "Channel1" "Channel0" 0,
       Insight.portfolio 1 1 1 52 2] := by
  norm_num [generateInsights, sortByEffDesc, insertEffDesc, exC3Summary,
    exC3Curves, exMMMChannel, exCurve, exInfo, avgEfficiency,
    positiveEfficiencies, maxEfficiency, minEfficiency, satDisplay,
    alookup, nearSaturation, List.filter]

/-- C3 (counterexample): on `exC3Summary`/`exC3Curves` the top channel's
efficiency (`1`) does not exceed the cross-channel mean (`1`) by the 20%
margin, yet a success insight naming it is still emitted. -/
theorem c3_counterexample :
    ((exMMMChannel "Channel0" 1).efficiency ≤
        avgEfficiency exC3Curves * (12 / 10)) ∧
      Insight.topPerformer "Channel0" 1 0 60000 ∈
        generateInsights exC3Summary exC3Curves exInfo := by
  constructor
  · norm_num [exMMMChannel, avgEfficiency, positiveEfficiencies,
      exC3Curves, exCurve, List.filter]
  · rw [generateInsights_exC3_eq]
    simp

/-- C3 (amended): whenever the channel summary is non-empty, a success
insight is emitted unconditionally — as the first insight, naming the
top-ranked channel — with no margin test against the mean efficiency; no
success insight is emitted only when the summary is empty. -/
theorem c3_success_unconditional :
    (∀ (x : String × MMMChannel) (xs : List (String × MMMChannel))
        (curves : List (String × ResponseCurve)) (info : MMMInfo),
      ∃ top, (sortByEffDesc (x :: xs)).head? = some top ∧
        (generateInsights (x :: xs) curves info).head? =
          some (Insight.topPerformer top.1 top.2.efficiency
            ((top.2.efficiency - avgEfficiency curves) /
              avgEfficiency curves * 100)
            (satDisplay curves top.1)))
    ∧ ∀ (curves : List (String × ResponseCurve)) (info : MMMInfo),
        (generateInsights [] curves info).filter
          (fun i => decide (i.kind = InsightKind.success)) = [] := by
  constructor
  · intro x xs c i
    rcases hs : sortByEffDesc (x :: xs) with _ | ⟨t, ts⟩
    · have : (x :: xs).length = 0 := by
        rw [← length_sortByEffDesc (x :: xs), hs]; rfl
      cases this
    · exact ⟨t, rfl, by simp [generateInsights, hs]⟩
  · intro c i
    by_cases hn : nearSaturation c = [] <;>
      simp [generateInsights, sortByEffDesc, hn, Insight.kind]

/-- Two channels with efficiencies `1.58` and `0.83` (the spec's example
scenario 3). -/
def exC4Summary : List (String × MMMChannel) :=
  [("Channel0", exMMMChannel "Channel0" 1.58),
   ("Channel1", exMMMChannel "Channel1" 0.83)]

/-- Curves for `exC4Summary` with matching efficiencies and saturation
points above the alert threshold. -/
def exC4Curves : List (String × ResponseCurve) :=
  [("Channel0", exCurve 1.58 60000), ("Channel1", exCurve 0.83 70000)]

/-- The full insight run on the spec's example scenario 3: a success
naming `Channel0`, a warning naming `Channel1`, a budget-shift info with
gap `1.58 − 0.83 = 0.75`, and the portfolio info. -/
theorem generateInsights_exC4_eq :
    generateInsights exC4Summary exC4Curves exInfo =
      [Insight.topPerformer "Channel0" (79 / 50) (7500 / 241) 60000,
       Insight.underperforming "Channel1" (83 / 100) (3750 / 83),
       Insight.budgetOpportunity "Channel1" "Channel0" (3 / 4),
       Insight.portfolio (241 / 200) (79 / 50) (83 / 100) 52 2] := by
  norm_num [generateInsights, sortByEffDesc, insertEffDesc, exC4Summary,
    exC4Curves, exMMMChannel, exCurve, exInfo, avgEfficiency,
    positiveEfficiencies, maxEfficiency, minEfficiency, satDisplay,
    alookup, nearSaturation, List.filter]

/-- C4: whenever the top- and bottom-ranked channels differ (at least two
summary entries), a budget-shift info insight is emitted whose gap is
`top.efficiency − bottom.efficiency`; and on the concrete example with
efficiencies `1.58` and `0.83` the run emits a success insight naming the
first channel, a warning naming the second, and an info insight with gap
`0.75`. -/
theorem c4_budget_gap :
    (∀ (summary : List (String × MMMChannel))
        (curves : List (String × ResponseCurve)) (info : MMMInfo),
      2 ≤ summary.length →
      ∃ top under, (sortByEffDesc summary).head? = some top ∧
        (sortByEffDesc summary).getLast? = some under ∧
        Insight.budgetOpportunity under.1 top.1
            (top.2.efficiency - under.2.efficiency) ∈
          generateInsights summary curves info)
    ∧ Insight.topPerformer "Channel0" (79 / 50) (7500 / 241) 60000 ∈
        generateInsights exC4Summary exC4Curves exInfo
    ∧ Insight.underperforming "Channel1" (83 / 100) (3750 / 83) ∈
        generateInsights exC4Summary exC4Curves exInfo
    ∧ Insight.budgetOpportunity "Channel1" "Channel0" (3 / 4) ∈
        generateInsights exC4Summary exC4Curves exInfo := by
  refine ⟨?_, ?_, ?_, ?_⟩
  · intro s c i h2
    rcases hs : sortByEffDesc s with _ | ⟨t, ts⟩
    · rw [← length_sortByEffDesc s, hs] at h2; cases h2
    · have hlen2 : 2 ≤ (t :: ts).length := by
        rw [← hs, length_sortByEffDesc]; exact h2
      obtain ⟨w, hw⟩ := Option.isSome_iff_exists.mp
        (List.getLast?_isSome.mpr (List.cons_ne_nil t ts))
      refine ⟨t, w, rfl, hw, ?_⟩
      simp only [generateInsights, hs, hlen2, hw, if_pos, List.head?_cons]
      simp
  · rw [generateInsights_exC4_eq]; simp
  · rw [generateInsights_exC4_eq]; simp
  · rw [generateInsights_exC4_eq]; simp

/-- Witness for C4: the general budget-gap conclusion instantiated at the
concrete two-channel example. -/
theorem c4_budget_gap_witness :
    2 ≤ exC4Summary.length ∧
    ∃ top under, (sortByEffDesc exC4Summary).head? = some top ∧
      (sortByEffDesc exC4Summary).getLast? = some under ∧
      Insight.budgetOpportunity under.1 top.1
          (top.2.efficiency - under.2.efficiency) ∈
        generateInsights exC4Summary exC4Curves exInfo :=
  ⟨by simp [exC4Summary],
   c4_budget_gap.1 exC4Summary exC4Curves exInfo (by simp [exC4Summary])⟩

/-- C9: every entry of the channel summary fabricates its spend figures as
exactly half of the corresponding contribution figures, so the implied
contribution-per-spend ratio is the constant 2. -/
theorem c9_half_spend :
    ∀ (channels : List String)
      (contribSummary : List (String × ChannelStats))
      (curves : List (String × ResponseCurve)) (p : String × MMMChannel),
    p ∈ getChannelSummary channels contribSummary curves →
    p.2.total_spend = p.2.total_contribution / 2 ∧
    p.2.avg_weekly_spend = p.2.avg_weekly_contribution / 2 ∧
    p.2.total_contribution = 2 * p.2.total_spend := by
  intro _ _ _ p hp
  obtain ⟨cd, cv, _, _, hval⟩ := mem_getChannelSummary hp
  rw [hval]
  refine ⟨?_, ?_, ?_⟩ <;> norm_num <;> ring

/-- Concrete channel list for the C9 witness. -/
def exC9Channels : List String := ["A"]

/-- Concrete contribution summary for the C9 witness. -/
def exC9Contrib : List (String × ChannelStats) :=
  [("A", { mean := 10, total := 100, max := 40, min := 10 })]

/-- Concrete curves record for the C9 witness. -/
def exC9Curves : List (String × ResponseCurve) :=
  [("A", exCurve 1.58 60000)]

/-- The channel-summary entry built from the C9 witness inputs. -/
def exC9Entry : String × MMMChannel :=
  ("A", { name := "A", total_spend := 50, total_contribution := 100
          contribution_share := 1, efficiency := 79 / 50
          avg_weekly_spend := 5, avg_weekly_contribution := 10 })

/-- The C9 witness inputs evaluate to the single expected entry. -/
theorem getChannelSummary_exC9_eq :
    getChannelSummary exC9Channels exC9Contrib exC9Curves = [exC9Entry] := by
  norm_num [getChannelSummary, exC9Channels, exC9Contrib, exC9Curves,
    exC9Entry, exCurve, alookup, List.filterMap_cons]

/-- Witness for C9: the half-spend relation at a concrete summary entry. -/
theorem c9_half_spend_witness :
    exC9Entry ∈ getChannelSummary exC9Channels exC9Contrib exC9Curves ∧
    exC9Entry.2.total_spend = exC9Entry.2.total_contribution / 2 ∧
    exC9Entry.2.avg_weekly_spend = exC9Entry.2.avg_weekly_contribution / 2 ∧
    exC9Entry.2.total_contribution = 2 * exC9Entry.2.total_spend := by
  have hmem : exC9Entry ∈ getChannelSummary exC9Channels exC9Contrib exC9Curves := by
    rw [getChannelSummary_exC9_eq]; simp
  exact ⟨hmem, c9_half_spend exC9Channels exC9Contrib exC9Curves exC9Entry hmem⟩

/-! ## Backend analytics engine

The Python analytics backend (ArtifactStore, ContributionProcessor,
CurveEngine, AnalyticsService) is not among the available sources — only
its HTTP consumers are.  The definitions below are modelled from the
specification (§3, §4.1–§4.3, §4.5). -/

/-- Modelled from the spec: a channel of the loaded artifact (§3) — name,
ROI coefficient, adstock decay rate, Hill slope and half-saturation spend
`ec`, weekly spend series.  The Hill slope is taken as a natural-number
exponent so the rational-arithmetic model stays executable; the spec's
examples use `slope = 2`. -/
structure Channel where
  name : String
  roi : ℚ
  adstock_rate : ℚ
  hill_slope : ℕ
  ec : ℚ
  spend : List ℚ
  deriving DecidableEq, Repr

/-- Modelled from the spec: the `source` tag distinguishing a really
loaded artifact from the synthetic fallback (§4.1). -/
inductive ArtifactSource
  | real
  | synthetic
  deriving DecidableEq, Repr

/-- Modelled from the spec: the loaded artifact — channel records plus the
`source` tag (§3, §4.1). -/
structure Artifact where
  source : ArtifactSource
  channels : List Channel
  deriving DecidableEq, Repr

/-- Modelled from the spec: `getChannels()` of AnalyticsService — the
artifact's channel name list (§4.5, §6). -/
def getChannels (a : Artifact) : List String := a.channels.map (·.name)

/-- Modelled from the spec: the contribution series of a channel —
`contribution[t] = roi(channel) × spend(channel)[t]` (§4.2). -/
def contributionSeries (c : Channel) : List ℚ :=
  c.spend.map (fun s => c.roi * s)

/-- Maximum of a list of rationals with `0` for the empty list. -/
def listPeak (l : List ℚ) : ℚ := l.foldr max 0

/-- Maximum of a non-empty list, with a default for the empty list. -/
def listMaxD (l : List ℚ) (d : ℚ) : ℚ :=
  match l with
  | [] => d
  | x :: xs => xs.foldl max x

/-- Minimum of a non-empty list, with a default for the empty list. -/
def listMinD (l : List ℚ) (d : ℚ) : ℚ :=
  match l with
  | [] => d
  | x :: xs => xs.foldl min x

/-- Modelled from the spec: per-channel summary statistics — mean, total
(sum), max, min of the contribution series (§4.2). -/
def statsOf (l : List ℚ) : ChannelStats :=
  { mean := l.sum / l.length, total := l.sum
    max := listMaxD l 0, min := listMinD l 0 }

/-- Modelled from the spec: the contribution endpoint's summary record,
keyed by channel name (§4.2, §6). -/
def contributionSummary (a : Artifact) : List (String × ChannelStats) :=
  a.channels.map (fun c => (c.name, statsOf (contributionSeries c)))

/-- Modelled from the spec: number of spend sample points (default 20–50,
§4.3.2). -/
def nSamples : ℕ := 30

/-- Modelled from the spec: the sampled spend domain upper end —
`max(3 × ec, observed maximum historical spend)` (§4.3.2). -/
def spendMaxOf (c : Channel) : ℚ := max (3 * c.ec) (listPeak c.spend)

/-- Modelled from the spec: `n` spend sample points evenly spaced from `0`
to `m` (§4.3.2). -/
def sampleSpends (m : ℚ) (n : ℕ) : List ℚ :=
  (List.range n).map (fun i : ℕ => m * (i : ℚ) / ((n - 1 : ℕ) : ℚ))

/-- Modelled from the spec: the raw Hill response
`r(s) = s^slope / (ec^slope + s^slope)` (§4.3.3). -/
def hillRaw (slope : ℕ) (ec s : ℚ) : ℚ :=
  s ^ slope / (ec ^ slope + s ^ slope)

/-- Modelled from the spec: the curve scale — the channel's observed peak
contribution (§4.3.3). -/
def scaleOf (c : Channel) : ℚ := listPeak (contributionSeries c)

/-- Modelled from the spec: the scaled Hill response
`response(s) = r(s) × scale` (§4.3.3). -/
def hillResponse (slope : ℕ) (ec scale s : ℚ) : ℚ :=
  hillRaw slope ec s * scale

/-- Modelled from the spec: the response of a channel at a spend level —
Hill response for `slope, ec > 0`, and the degenerate linear fallback
`k × spend` (with `k` the model ROI) otherwise (§4.3.1). -/
def responseAt (c : Channel) (s : ℚ) : ℚ :=
  if c.hill_slope = 0 ∨ c.ec ≤ 0 then c.roi * s
  else hillResponse c.hill_slope c.ec (scaleOf c) s

/-- Modelled from the spec: discrete marginal returns
`m[i] = (response[i] − response[i−1]) / (spend[i] − spend[i−1])` over
consecutive sample pairs (§4.3.5). -/
def marginals : List ℚ → List ℚ → List ℚ
  | s1 :: s2 :: ss, r1 :: r2 :: rs =>
      (r2 - r1) / (s2 - s1) :: marginals (s2 :: ss) (r2 :: rs)
  | _, _ => []

/-- Modelled from the spec: saturation-point detection — the smallest
sampled spend beyond which every marginal return is under 10% of the
peak marginal return; the domain's maximum spend when the curve never
saturates or is completely flat (§4.3.5–§4.3.6). -/
def satPointOf (spends resps : List ℚ) : ℚ :=
  let ms := marginals spends resps
  let mMax := listPeak ms
  if mMax = 0 then listPeak spends
  else
    match (List.range ms.length).find?
        (fun i => (ms.drop i).all (fun m => decide (m < mMax / 10))) with
    | some i => (spends.drop (i + 1)).headD (listPeak spends)
    | none => listPeak spends

/-- Mean of a list of rationals (`0` for the empty list). -/
def avgOf (l : List ℚ) : ℚ := l.sum / l.length

/-- Modelled from the spec: curve-derived efficiency — the response at the
channel's historical average spend divided by that spend (§4.3.4). -/
def curveEfficiency (c : Channel) : ℚ :=
  responseAt c (avgOf c.spend) / avgOf c.spend

/-- Modelled from the spec: `curve(artifact, channel)` of CurveEngine —
sampled spend/response sequences plus the derived scalars (§4.3). -/
def hillCurve (c : Channel) : ResponseCurve :=
  let spends := sampleSpends (spendMaxOf c) nSamples
  let resps := spends.map (responseAt c)
  { spend := spends, response := resps
    saturation_point := satPointOf spends resps
    efficiency := curveEfficiency c
    adstock_rate := c.adstock_rate }

/-- Modelled from the spec: the curves endpoint's record, keyed by channel
name (§4.3, §6). -/
def curvesOf (a : Artifact) : List (String × ResponseCurve) :=
  a.channels.map (fun c => (c.name, hillCurve c))

/-! ## ArtifactStore: load with synthetic fallback (§4.1) -/

/-- Modelled from the spec: the strict-mode load failure (§7). -/
inductive ArtifactLoadError
  | loadFailed
  deriving DecidableEq, Repr

/-- A linear congruential step for the reproducible pseudo-random
synthetic spend series. -/
def lcgNext (s : ℕ) : ℕ := (1103515245 * s + 12345) % 2147483648

/-- A reproducible pseudo-random spend series from a seed. -/
def lcgSpends : ℕ → ℕ → List ℚ
  | _, 0 => []
  | s, n + 1 =>
      let s' := lcgNext s
      ((1000 + s' % 9000 : ℕ) : ℚ) :: lcgSpends s' n

/-- Modelled from the spec: one synthetic placeholder channel — plausible
ROI/slope ranges and a pseudo-random spend series seeded by a fixed
constant (§4.1). -/
def syntheticChannel (i : ℕ) (nm : String) : Channel :=
  { name := nm, roi := (8 + i : ℚ) / 8, adstock_rate := (3 + i : ℚ) / 10
    hill_slope := 2, ec := 20000 + 10000 * i
    spend := lcgSpends (42 + i) 12 }

/-- Modelled from the spec: the deterministic synthetic placeholder
artifact — fixed channel count, tagged `source = synthetic` (§4.1). -/
def syntheticArtifact : Artifact :=
  { source := .synthetic
    channels :=
      [syntheticChannel 0 "TV", syntheticChannel 1 "Search",
       syntheticChannel 2 "Social", syntheticChannel 3 "Display",
       syntheticChannel 4 "Radio"] }

/-- Modelled from the spec: `load(path)` of ArtifactStore.  The outcome of
reading and structurally validating the artifact file is modelled as an
`Option`: `none` when the artifact cannot be read or fails validation.
In that case the synthetic fallback is returned by default, and
`ArtifactLoadError` is raised only in strict mode (§4.1, §7). -/
def loadArtifact (readResult : Option (List Channel)) (strict : Bool) :
    Except ArtifactLoadError Artifact :=
  match readResult with
  | some cs => .ok { source := .real, channels := cs }
  | none =>
      if strict then .error .loadFailed
      else .ok syntheticArtifact

/-- C8: when the artifact cannot be read and strict mode is off, `load`
returns the deterministic synthetic artifact, tagged `synthetic`, with a
non-empty channel set; in strict mode the same failure raises
`ArtifactLoadError`. -/
theorem c8_synthetic_fallback :
    loadArtifact none false = Except.ok syntheticArtifact ∧
    syntheticArtifact.source = ArtifactSource.synthetic ∧
    syntheticArtifact.channels ≠ [] ∧
    loadArtifact none true = Except.error ArtifactLoadError.loadFailed :=
  ⟨rfl, rfl, by simp [syntheticArtifact], rfl⟩

/-- Keyed lookup into a record built as a map over channels always
succeeds for a name of the channel list, yielding the mapped value shape. -/
theorem alookup_channel_map {β : Type} (g : Channel → β)
    (cs : List Channel) (nm : String) (h : nm ∈ cs.map (·.name)) :
    ∃ v, alookup nm (cs.map (fun c => (c.name, g c))) = some v := by
  induction cs with
  | nil => cases h
  | cons c cs ih =>
      by_cases hc : nm = c.name
      · exact ⟨g c, by simp [alookup, hc]⟩
      · have hmem : nm ∈ cs.map (·.name) := by
          rcases List.mem_cons.mp h with h1 | h1
          · exact absurd h1 hc
          · exact h1
        obtain ⟨v, hv⟩ := ih hmem
        exact ⟨v, by simp [alookup, hc, hv]⟩

/-- When a filterMap step succeeds on every element, preserving it as the
first component, the produced keys are exactly the input list. -/
theorem map_fst_filterMap {β : Type} {l : List String}
    {f : String → Option (String × β)}
    (h : ∀ x ∈ l, ∃ y, f x = some (x, y)) :
    (l.filterMap f).map Prod.fst = l := by
  induction l with
  | nil => rfl
  | cons x xs ih =>
      obtain ⟨y, hy⟩ := h x (List.mem_cons_self x xs)
      rw [List.filterMap_cons, hy, List.map_cons,
        ih (fun z hz => h z (List.mem_cons_of_mem x hz))]

/-- C1: the key set of the contribution summary and of the curves record
each equal the channel list, and the frontend channel summary built from
those outputs has an entry for every channel returned by
`getChannels()`. -/
theorem c1_channel_set_consistent :
    ∀ a : Artifact,
    (contributionSummary a).map Prod.fst = getChannels a ∧
    (curvesOf a).map Prod.fst = getChannels a ∧
    (getChannelSummary (getChannels a) (contributionSummary a)
        (curvesOf a)).map Prod.fst = getChannels a := by
  intro a
  refine ⟨?_, ?_, ?_⟩
  · simp [contributionSummary, getChannels, List.map_map, Function.comp]
  · simp [curvesOf, getChannels, List.map_map, Function.comp]
  · unfold getChannelSummary
    apply map_fst_filterMap
    intro ch hch
    obtain ⟨cd, hcd⟩ := alookup_channel_map
      (fun c => statsOf (contributionSeries c)) a.channels ch hch
    obtain ⟨cv, hcv⟩ := alookup_channel_map hillCurve a.channels ch hch
    rw [show alookup ch (contributionSummary a) = some cd from hcd,
      show alookup ch (curvesOf a) = some cv from hcv]
    exact ⟨_, rfl⟩

/-- Indexing via `getD` distributes over the pointwise multiplication of a series. -/
theorem getD_map_mul (r : ℚ) (l : List ℚ) (t : ℕ) :
    (l.map (fun s => r * s)).getD t 0 = r * l.getD t 0 := by
  induction l generalizing t with
  | nil => simp
  | cons x xs ih =>
      cases t with
      | zero => rfl
      | succ t => simpa using ih t

/-- The channel of the spec's example scenario 1: `roi = 1.58`,
`spend = [1000, 2000, 3000]`. -/
def exC5 : Channel :=
  { name := "TV", roi := 1.58, adstock_rate := 0.5, hill_slope := 2
    ec := 50000, spend := [1000, 2000, 3000] }

/-- C5: every contribution equals `roi × spend[t]`, the summary total is
the series sum, and on the spec's example the series is
`[1580, 3160, 4740]` with total `9480`. -/
theorem c5_contribution_series :
    (∀ (c : Channel) (t : ℕ),
      (contributionSeries c).getD t 0 = c.roi * c.spend.getD t 0) ∧
    (∀ c : Channel,
      (statsOf (contributionSeries c)).total = (contributionSeries c).sum) ∧
    contributionSeries exC5 = [1580, 3160, 4740] ∧
    (statsOf (contributionSeries exC5)).total = 9480 := by
  refine ⟨fun c t => getD_map_mul c.roi c.spend t, fun _ => rfl, ?_, ?_⟩
  · norm_num [contributionSeries, exC5]
  · norm_num [contributionSeries, statsOf, exC5]

/-! ## Curve monotonicity and the Hill midpoint -/

theorem listPeak_nonneg (l : List ℚ) : 0 ≤ listPeak l := by
  induction l with
  | nil => exact le_refl 0
  | cons x xs ih => exact le_trans ih (le_max_right x (listPeak xs))

/-- The raw Hill response is monotone in spend on the non-negative
half-line. -/
theorem hillRaw_mono (slope : ℕ) {ec s t : ℚ} (he : 0 < ec)
    (hs : 0 ≤ s) (hst : s ≤ t) :
    hillRaw slope ec s ≤ hillRaw slope ec t := by
  have hpe : 0 < ec ^ slope := pow_pos he slope
  have hsn : (0 : ℚ) ≤ s ^ slope := pow_nonneg hs slope
  have htn : s ^ slope ≤ t ^ slope := pow_le_pow_left₀ hs hst slope
  rw [hillRaw, hillRaw, div_le_div_iff₀ (by linarith) (by linarith)]
  nlinarith [mul_le_mul_of_nonneg_right htn hpe.le]

/-- The channel response function is monotone in spend for positive Hill
parameters. -/
theorem responseAt_mono {c : Channel} (h1 : 0 < c.hill_slope)
    (h2 : 0 < c.ec) {s t : ℚ} (hs : 0 ≤ s) (hst : s ≤ t) :
    responseAt c s ≤ responseAt c t := by
  have hcond : ¬ (c.hill_slope = 0 ∨ c.ec ≤ 0) := by
    push_neg
    exact ⟨Nat.pos_iff_ne_zero.mp h1, h2⟩
  rw [responseAt, responseAt, if_neg hcond, if_neg hcond]
  simp only [hillResponse]
  exact mul_le_mul_of_nonneg_right (hillRaw_mono c.hill_slope h2 hs hst)
    (listPeak_nonneg (contributionSeries c))

/-- Every sampled spend is non-negative when the domain end is. -/
theorem sample_nonneg {m : ℚ} (hm : 0 ≤ m) (d : ℚ) (i : ℕ)
    (hd : 0 ≤ d) : 0 ≤ m * i / d :=
  div_nonneg (mul_nonneg hm (Nat.cast_nonneg i)) hd

/-- Consecutive sampled spends are non-decreasing when the domain end
is non-negative. -/
theorem sample_step {m : ℚ} (hm : 0 ≤ m) {d : ℚ} (hd : 0 ≤ d) (i : ℕ) :
    m * i / d ≤ m * ((i : ℚ) + 1) / d := by
  rcases eq_or_lt_of_le hd with h0 | h0
  · rw [← h0, div_zero, div_zero]
  · refine (div_le_div_iff_of_pos_right h0).mpr ?_
    have : (i : ℚ) ≤ (i : ℚ) + 1 := by linarith
    exact mul_le_mul_of_nonneg_left this hm

/-- A list mapped over `List.range` is a chain whenever the function is
non-decreasing step by step. -/
theorem chain'_map_range {f : ℕ → ℚ} (n : ℕ) (hf : ∀ i, f i ≤ f (i + 1)) :
    List.Chain' (· ≤ ·) ((List.range n).map f) := by
  rw [List.chain'_map]
  cases n with
  | zero => simp
  | succ k =>
      exact (List.chain'_range_succ (fun a b => f a ≤ f b) k).mpr
        (fun m _ => hf m)

/-- C6: for a channel with positive Hill slope and half-saturation spend,
the generated response sequence is non-decreasing along the sampled spend
domain. -/
theorem c6_curve_monotone :
    ∀ c : Channel, 0 < c.hill_slope → 0 < c.ec →
    List.Chain' (· ≤ ·) (hillCurve c).response := by
  intro c h1 h2
  have hm : (0 : ℚ) ≤ spendMaxOf c :=
    le_trans (by linarith) (le_max_left (3 * c.ec) (listPeak c.spend))
  show List.Chain' (· ≤ ·)
    ((sampleSpends (spendMaxOf c) nSamples).map (responseAt c))
  rw [sampleSpends, List.map_map]
  apply chain'_map_range
  intro i
  have hd : (0 : ℚ) ≤ ((nSamples - 1 : ℕ) : ℚ) := Nat.cast_nonneg _
  have hstep := sample_step hm hd i
  simp only [Function.comp]
  refine responseAt_mono h1 h2 (sample_nonneg hm _ i hd) ?_
  push_cast
  push_cast at hstep
  exact hstep

/-- A concrete channel with positive Hill parameters. -/
def exC6 : Channel :=
  { name := "TV", roi := 1, adstock_rate := 0.5, hill_slope := 2
    ec := 50000, spend := [10000, 20000, 30000] }

/-- Witness for C6: the response sequence of the concrete channel is
non-decreasing. -/
theorem c6_curve_monotone_witness :
    0 < exC6.hill_slope ∧ (0 : ℚ) < exC6.ec ∧
    List.Chain' (· ≤ ·) (hillCurve exC6).response :=
  ⟨by decide, by norm_num [exC6],
   c6_curve_monotone exC6 (by decide) (by norm_num [exC6])⟩

/-- C7: the Hill midpoint property — at `spend = ec` the raw response is
exactly one half for any positive `ec`, so at `slope = 2, ec = 50000` the
scaled response at `50000` is half the curve's asymptotic scale. -/
theorem c7_hill_midpoint :
    (∀ (slope : ℕ) (ec : ℚ), 0 < ec → hillRaw slope ec ec = 1 / 2) ∧
    (∀ scale : ℚ, hillResponse 2 50000 scale 50000 = scale / 2) := by
  have key : ∀ (slope : ℕ) (ec : ℚ), 0 < ec → hillRaw slope ec ec = 1 / 2 := by
    intro slope ec he
    have hpe : 0 < ec ^ slope := pow_pos he slope
    rw [hillRaw, div_eq_iff (by linarith)]
    ring
  refine ⟨key, fun scale => ?_⟩
  rw [hillResponse, key 2 50000 (by norm_num)]
  ring

/-- Witness for C7: the midpoint value at the spec's concrete parameters. -/
theorem c7_hill_midpoint_witness :
    (0 : ℚ) < 50000 ∧ hillRaw 2 50000 50000 = 1 / 2 :=
  ⟨by norm_num, c7_hill_midpoint.1 2 50000 (by norm_num)⟩

/-! ## Auth store (`lib/auth.ts`) -/

/-- The authenticated user record (`User` in `lib/auth.ts`). -/
structure User where
  id : ℕ
  email : String
  full_name : String
  company : Option String
  role : String
  is_active : Bool
  created_at : String
  deriving DecidableEq, Repr

/-- The login endpoint's response (`AuthResponse` in `lib/auth.ts`). -/
structure AuthResponse where
  access_token : String
  token_type : String
  user : User
  deriving DecidableEq, Repr

/-- The persisted auth store state (`user`, `token`, `isLoading` in
`AuthState`). -/
structure AuthState where
  user : Option User
  token : Option String
  isLoading : Bool
  deriving DecidableEq, Repr

/-- Outcome of the login fetch: a parsed `AuthResponse` on `response.ok`,
an HTTP error body with optional `detail` otherwise, or a thrown network
error. -/
inductive LoginResult
  | ok (resp : AuthResponse)
  | httpError (detail : Option String)
  | networkError
  deriving DecidableEq, Repr

/-- The error re-thrown by `login`: the `Error(detail || 'Login failed')`
built for a non-ok response, or the original network error. -/
inductive LoginError
  | http (message : String)
  | network
  deriving DecidableEq, Repr

/-- Login action `useAuth.login`: sets `isLoading` to `true`, performs the fetch, and
on success stores the user and token with `isLoading := false`; any
failure is caught, `isLoading` is set back to `false` and the error is
re-thrown.  The returned pair is the final store state and the thrown
error, if any. -/
def login (s : AuthState) (r : LoginResult) : AuthState × Option LoginError :=
  let s1 : AuthState := { s with isLoading := true }
  match r with
  | .ok d =>
      ({ s1 with user := some d.user, token := some d.access_token
                 isLoading := false }, none)
  | .httpError detail =>
      ({ s1 with isLoading := false },
       some (.http (detail.getD "Login failed")))
  | .networkError =>
      ({ s1 with isLoading := false }, some .network)

/-- C10: every failed login attempt leaves the stored user and token
unchanged, ends with `isLoading = false`, and re-throws the error. -/
theorem c10_login_atomic_on_error :
    ∀ (s : AuthState) (r : LoginResult),
    (∀ d, r ≠ LoginResult.ok d) →
    (login s r).1.user = s.user ∧
    (login s r).1.token = s.token ∧
    (login s r).1.isLoading = false ∧
    (login s r).2.isSome = true := by
  intro s r h
  cases r with
  | ok d => exact absurd rfl (h d)
  | httpError detail => exact ⟨rfl, rfl, rfl, rfl⟩
  | networkError => exact ⟨rfl, rfl, rfl, rfl⟩

/-- A concrete authenticated state for the C10 witness. -/
def exAuthState : AuthState :=
  { user := some { id := 7, email := "a@b.c", full_name := "Ana B"
                   company := none, role := "user", is_active := true
                   created_at := "2024-01-01" }
    token := some "token0", isLoading := false }

/-- Witness for C10: a network failure leaves the concrete state's user
and token unchanged. -/
theorem c10_login_atomic_on_error_witness :
    (∀ d, LoginResult.networkError ≠ LoginResult.ok d) ∧
    (login exAuthState LoginResult.networkError).1.user = exAuthState.user ∧
    (login exAuthState LoginResult.networkError).1.token = exAuthState.token ∧
    (login exAuthState LoginResult.networkError).1.isLoading = false ∧
    (login exAuthState LoginResult.networkError).2.isSome = true :=
  And.intro (fun d h => by cases h)
    (c10_login_atomic_on_error exAuthState LoginResult.networkError
      (fun d h => by cases h))

end MMMDash
